import Mathlib

/-!
Shallow embedding of the prediction adapter of the Livo liver-cirrhosis
repository (`src/model_utils.py`): the feature catalog, the input
validator `validate_input_data`, the cached model loader `load_model`,
and the prediction entry point `predict_liver_disease`.

Python values occurring in patient records are modelled by `PyValue`:
Python ints as `Int`, Python floats as exact fractions (an `Int`
numerator over a positive `Nat` denominator — every float literal in the
catalog and in the claims is an exact decimal, and the adapter performs
no float arithmetic, only comparisons and pass-through), strings as
`String`.  Python `==` (also used by the `in` operator) compares numbers
numerically across `int`/`float` and is modelled by `pyEq`; order
comparisons on numbers are modelled by cross-multiplication of the
exact fractions, which agrees with the rational order.

Fallible Python evaluation (exceptions) is modelled by `Except String`:
the body of the validator is `validateBody` / `validateBodyAny`, and
`validate_input_data` is the `try/except` wrapper around it, exactly as
in the source.
-/

/-- A Python value as it can occur in a patient record.  `.float n d`
models the Python float whose exact value is `n / d`; every use in this
development has `0 < d`. -/
inductive PyValue where
  | int : Int → PyValue
  | float : Int → Nat → PyValue
  | str : String → PyValue
  | none : PyValue
deriving DecidableEq, Repr

/-- Numeric view of a value: Python `int` and `float` both denote an
exact fraction (numerator, positive denominator); other values are not
numbers. -/
def PyValue.numView : PyValue → Option (Int × Nat)
  | .int n => some (n, 1)
  | .float n d => some (n, d)
  | .str _ => Option.none
  | .none => Option.none

/-- Python `isinstance(value, (int, float))`. -/
def isNumber : PyValue → Bool
  | .int _ => true
  | .float _ _ => true
  | _ => false

/-- Python `==`: numbers compare by magnitude across `int`/`float`
(so `1.0 == 1` is true), strings compare as strings, `None` only equals
`None`, and values of unrelated kinds are unequal. -/
def pyEq (a b : PyValue) : Bool :=
  match a.numView, b.numView with
  | some (n1, d1), some (n2, d2) => n1 * (d2 : Int) = n2 * (d1 : Int)
  | _, _ =>
    match a, b with
    | .str s, .str t => s = t
    | .none, .none => true
    | _, _ => false

/-- Python `a < b` on numbers (only ever applied after an `isinstance`
guard in the source, so the non-number fallback is unreachable there). -/
def pyLt (a b : PyValue) : Bool :=
  match a.numView, b.numView with
  | some (n1, d1), some (n2, d2) => n1 * (d2 : Int) < n2 * (d1 : Int)
  | _, _ => false

/-- Python `x in l` for a list literal: membership by `==`. -/
def pyIn (v : PyValue) (l : List PyValue) : Bool :=
  l.any (fun x => pyEq v x)

/-- The Python type name of a value (used in exception messages). -/
def typeName : PyValue → String
  | .int _ => "int"
  | .float _ _ => "float"
  | .str _ => "str"
  | .none => "NoneType"

/-- Python `str()` of a value interpolated into an f-string.  The floats
appearing in the feature catalog all have denominators dividing 10 and
print with a single decimal digit (`2.0`, `0.3`, ...); the final branch
is never reached by the adapter. -/
def pyStr : PyValue → String
  | .int n => toString n
  | .float n d =>
      if 10 % d = 0 ∧ d ≠ 0 then
        let t : Int := n * ((10 / d : Nat) : Int)
        toString (t / 10) ++ "." ++ toString (t % 10)
      else
        toString n ++ "/" ++ toString d
  | .str s => s
  | .none => "None"

/-- A patient record: the Python dict, as an association list with the
dict lookup taking the first (in a real dict: unique) binding. -/
abbrev Record := List (String × PyValue)

/-- `patient_data.keys()`. -/
def keys (record : Record) : List String := record.map Prod.fst

/-- An arbitrary Python object handed to the validator: either a dict
or some non-mapping value (on which `.keys()` raises). -/
inductive PyObj where
  | dict : Record → PyObj
  | other : PyValue → PyObj

/-- The `required_fields` set literal of `validate_input_data`, in the
order written in the source (set iteration order is not semantically
significant; the validator only uses membership and difference). -/
def requiredFields : List String :=
  ["Age", "Sex", "Albumin", "Bilirubin", "ALT", "AST", "ALP",
   "INR", "Platelets", "Sodium", "Creatinine", "Ascites",
   "Hepatomegaly", "Spiders", "Edema"]

/-- `get_feature_ranges`: the 10 numeric fields with their inclusive
bounds, as the Python literals (int vs. float) of the source.
`.float 3 10` is the literal `0.3`, `.float 1 2` the literal `0.5`. -/
def get_feature_ranges : List (String × PyValue × PyValue) :=
  [("Age", .int 18, .int 90),
   ("Albumin", .float 2 1, .float 6 1),
   ("Bilirubin", .float 3 10, .float 10 1),
   ("ALT", .int 7, .int 2000),
   ("AST", .int 10, .int 2000),
   ("ALP", .int 44, .int 500),
   ("INR", .float 1 2, .float 5 1),
   ("Platelets", .int 20, .int 500),
   ("Sodium", .int 125, .int 145),
   ("Creatinine", .float 1 2, .float 4 1)]

/-- The `boolean_fields` list literal of the source. -/
def booleanFields : List String :=
  ["Ascites", "Hepatomegaly", "Spiders", "Edema"]

/-- `missing_fields = required_fields - set(patient_data.keys())`:
the required fields not among the record keys, in required-set order. -/
def missingFields (record : Record) : List String :=
  requiredFields.filter (fun f => !(keys record).contains f)

/-- The range-checking loop of `validate_input_data`:
`for field, (min_val, max_val) in ranges.items(): ...`.
`Except.ok (some r)` is an early `return r`, `Except.ok none` means the
loop fell through, `Except.error` a raised exception. -/
def rangeCheck (record : Record) :
    List (String × PyValue × PyValue) → Except String (Option (Bool × String))
  | [] => Except.ok Option.none
  | (field, minVal, maxVal) :: rest =>
    if (keys record).contains field then
      match record.lookup field with
      | Option.none => Except.error ("KeyError: " ++ field)
      | some value =>
        if !isNumber value then
          Except.ok (some (false, field ++ " must be a number"))
        else if pyLt value minVal || pyLt maxVal value then
          Except.ok (some (false, field ++ " must be between " ++
            pyStr minVal ++ " and " ++ pyStr maxVal))
        else
          rangeCheck record rest
    else
      rangeCheck record rest

/-- The Sex check: `if patient_data["Sex"] not in ["M", "F"]` (the
source writes the literals with single quotes). -/
def sexCheck (record : Record) : Except String (Option (Bool × String)) :=
  match record.lookup "Sex" with
  | Option.none => Except.error "KeyError: Sex"
  | some v =>
    if !pyIn v [.str "M", .str "F"] then
      Except.ok (some (false, "Sex must be either \x27M\x27 or \x27F\x27"))
    else
      Except.ok Option.none

/-- The boolean-field loop: `for field in boolean_fields:
if patient_data[field] not in [0, 1]: ...`. -/
def boolCheck (record : Record) : List String → Except String (Option (Bool × String))
  | [] => Except.ok Option.none
  | field :: rest =>
    match record.lookup field with
    | Option.none => Except.error ("KeyError: " ++ field)
    | some v =>
      if !pyIn v [.int 0, .int 1] then
        Except.ok (some (false, field ++ " must be 0 or 1"))
      else
        boolCheck record rest

/-- The body of the `try` block of `validate_input_data` on a dict:
missing-fields check, range loop, Sex check, boolean loop, in order,
each early-returning on first failure. -/
def validateBody (record : Record) : Except String (Bool × String) :=
  let missing := missingFields record
  if missing ≠ [] then
    Except.ok (false, "Missing required fields: " ++ String.intercalate ", " missing)
  else
    match rangeCheck record get_feature_ranges with
    | Except.error e => Except.error e
    | Except.ok (some r) => Except.ok r
    | Except.ok Option.none =>
      match sexCheck record with
      | Except.error e => Except.error e
      | Except.ok (some r) => Except.ok r
      | Except.ok Option.none =>
        match boolCheck record booleanFields with
        | Except.error e => Except.error e
        | Except.ok (some r) => Except.ok r
        | Except.ok Option.none => Except.ok (true, "")

/-- The `try` body on an arbitrary object: a non-mapping argument makes
`patient_data.keys()` raise. -/
def validateBodyAny : PyObj → Except String (Bool × String)
  | .dict record => validateBody record
  | .other v => Except.error (typeName v ++ " object has no keys method")

/-- `validate_input_data`: the body wrapped in
`try ... except Exception as e: return False, f"Validation error: {e}"`. -/
def validate_input_data (obj : PyObj) : Bool × String :=
  match validateBodyAny obj with
  | Except.ok r => r
  | Except.error e => (false, "Validation error: " ++ e)

/-!
The model loader and the prediction entry point.

A trained classifier is opaque to the adapter: it exposes `predict`,
`predict_proba` and the ordered class-label list `classes_`.  The
one-row DataFrame built from the record carries exactly the record, so
the classifier functions take the record directly.  Probabilities are
Python floats, modelled like every other numeric value by `PyValue`.
-/

/-- The opaque trained classifier contract used by the adapter. -/
structure Classifier where
  predictFn : Record → String
  predictProbaFn : Record → List PyValue
  classes : List String

/-- The state of the on-disk model file at the fixed path: present and
deserializable, absent, or present but failing deserialization. -/
inductive FileState where
  | good : Classifier → FileState
  | absent : FileState
  | corrupt : String → FileState

/-- The fixed file name resolved next to the adapter. -/
def modelFileName : String := "liver_disease_staging_model.pkl"

/-- The body of `load_model`: existence check, deserialization, and the
`except` branch that displays the error via `st.error` and returns
`None`.  The second component is the list of error messages displayed. -/
def load_model (fs : FileState) : Option Classifier × List String :=
  match fs with
  | .good m => (some m, [])
  | .absent =>
      (Option.none,
       ["Error loading model: Model file not found at " ++ modelFileName])
  | .corrupt e =>
      (Option.none, ["Error loading model: " ++ e])

/-- The process-wide cache installed by the `@st.cache_resource`
decorator on `load_model`: the memoized result, how many times the
underlying loader body has run, and the errors displayed so far. -/
structure CacheState where
  cached : Option (Option Classifier)
  deserializeCount : Nat
  errors : List String

/-- The cache state at process start: nothing loaded yet. -/
def freshCache : CacheState :=
  { cached := Option.none, deserializeCount := 0, errors := [] }

/-- Modelled from the spec: the `@st.cache_resource` decorator (library
code outside this repository) memoizes the result of `load_model` for
the lifetime of the process, so the underlying deserialization executes
at most once and later calls return the cached instance. -/
def load_model_cached (fs : FileState) (s : CacheState) :
    Option Classifier × CacheState :=
  match s.cached with
  | some r => (r, s)
  | Option.none =>
      let (r, errs) := load_model fs
      (r, { cached := some r,
            deserializeCount := s.deserializeCount + 1,
            errors := s.errors ++ errs })

/-- Calling the cached loader `n` times in sequence, collecting the
returned handles and threading the cache state. -/
def callLoadN (fs : FileState) (s : CacheState) :
    Nat → List (Option Classifier) × CacheState
  | 0 => ([], s)
  | n + 1 =>
      let (r, s1) := load_model_cached fs s
      let (rs, s2) := callLoadN fs s1 n
      (r :: rs, s2)

/-- The outcome of `predict_liver_disease`: a normal return, a raised
`ValueError` (validation failure) or a raised `RuntimeError`. -/
inductive PredictResult where
  | ok : String → List (String × PyValue) → PredictResult
  | valueError : String → PredictResult
  | runtimeError : String → PredictResult
deriving DecidableEq, Repr

/-- `predict_liver_disease`: validate, raise `ValueError` on failure,
load the cached model, raise `RuntimeError` if it is `None`, otherwise
run the classifier on the one-row frame and zip `classes_` with the
probability vector into the probability mapping (the source's dict
comprehension over `zip(stage_names, probabilities)`). -/
def predict_liver_disease (fs : FileState) (s : CacheState)
    (patient_data : Record) : PredictResult × CacheState :=
  let v := validate_input_data (PyObj.dict patient_data)
  if v.fst = false then
    (PredictResult.valueError v.snd, s)
  else
    let (model?, s1) := load_model_cached fs s
    match model? with
    | Option.none => (PredictResult.runtimeError "Failed to load model", s1)
    | some model =>
        let predicted_stage := model.predictFn patient_data
        let probabilities := model.predictProbaFn patient_data
        let prob_dict := model.classes.zip probabilities
        (PredictResult.ok predicted_stage prob_dict, s1)

/-!  Concrete records used to exercise the definitions. -/

/-- A record with every field at a clinically sensible in-range value. -/
def validRecord : Record :=
  [("Age", .int 50), ("Sex", .str "M"), ("Albumin", .float 4 1),
   ("Bilirubin", .float 1 1), ("ALT", .int 30), ("AST", .int 30),
   ("ALP", .int 100), ("INR", .float 1 1), ("Platelets", .int 200),
   ("Sodium", .int 140), ("Creatinine", .float 1 1), ("Ascites", .int 0),
   ("Hepatomegaly", .int 0), ("Spiders", .int 0), ("Edema", .int 1)]

/-- Replace the binding of field `f` by `v` (the record keys are fixed,
only the value changes). -/
def setField (record : Record) (f : String) (v : PyValue) : Record :=
  record.map (fun p => if p.fst = f then (f, v) else p)

/-- Add 1 to a numeric value, preserving the Python int/float kind. -/
def pyAdd1 : PyValue → PyValue
  | .int n => .int (n + 1)
  | .float n d => .float (n + d) d
  | v => v

/-- Subtract 1 from a numeric value, preserving the int/float kind. -/
def pySub1 : PyValue → PyValue
  | .int n => .int (n - 1)
  | .float n d => .float (n - d) d
  | v => v

/-- Sum of a list of numeric values as an exact fraction (used to state
that a probability vector sums to 1). -/
def pySum (l : List PyValue) : Int × Nat :=
  l.foldl
    (fun acc v =>
      match v.numView with
      | some (n, d) => (acc.fst * d + n * acc.snd, acc.snd * d)
      | Option.none => acc)
    (0, 1)

example : validate_input_data (PyObj.dict validRecord) = (true, "") := by decide
example : validate_input_data (PyObj.dict (setField validRecord "Age" (.int 17))) =
    (false, "Age must be between 18 and 90") := by decide
example :
    validate_input_data (PyObj.dict (setField validRecord "Bilirubin" (.float 2 10))) =
    (false, "Bilirubin must be between 0.3 and 10.0") := by decide

/-!  Helper lemmas about the embedding. -/

/-- Key membership (`field in patient_data`) agrees with dict lookup. -/
theorem contains_keys_iff_lookup (record : Record) (f : String) :
    (keys record).contains f = (record.lookup f).isSome := by
  induction record with
  | nil => rfl
  | cons p rest ih =>
      obtain ⟨k, v⟩ := p
      simp only [keys, List.map_cons, List.contains_cons, List.lookup]
      cases hfk : (f == k) with
      | true => simp
      | false => simpa using ih

/-- When no required field is missing, every required field is bound. -/
theorem lookup_isSome_of_required (record : Record)
    (h : missingFields record = []) :
    ∀ f ∈ requiredFields, (record.lookup f).isSome := by
  intro f hf
  rw [missingFields, List.filter_eq_nil_iff] at h
  have := h f hf
  rw [contains_keys_iff_lookup] at this
  simpa using this

/-- Whenever the missing-fields check fires, the validator stops with
the message listing the missing fields, whatever the other values. -/
theorem validate_of_missing (record : Record) (h : missingFields record ≠ []) :
    validate_input_data (PyObj.dict record) =
      (false, "Missing required fields: " ++
        String.intercalate ", " (missingFields record)) := by
  simp [validate_input_data, validateBodyAny, validateBody, h]

/-- C7: For every input (of any shape), validate is total: any
internal fault raised while checking the record is caught and turned
into the return value `(False, "Validation error: " + e)`, and a
normally computed verdict is returned as is; `validate_input_data`
never propagates an exception to its caller (its result type is a plain
pair, not a fallible computation). -/
theorem validate_never_throws (obj : PyObj) :
    (∀ e, validateBodyAny obj = Except.error e →
      validate_input_data obj = (false, "Validation error: " ++ e)) ∧
    (∀ r, validateBodyAny obj = Except.ok r → validate_input_data obj = r) := by
  constructor
  · intro e he
    simp [validate_input_data, he]
  · intro r hr
    simp [validate_input_data, hr]

/-- Witness for C7: a non-mapping argument makes the body raise, and
the raised fault comes back as a generic validation-error verdict. -/
theorem validate_never_throws_witness :
    validateBodyAny (PyObj.other (PyValue.int 5)) =
      Except.error "int object has no keys method" ∧
    validate_input_data (PyObj.other (PyValue.int 5)) =
      (false, "Validation error: int object has no keys method") :=
  ⟨rfl, (validate_never_throws (PyObj.other (PyValue.int 5))).1 _ rfl⟩

/-- C3: A record missing one or more of the 15 required fields is
rejected with a message listing exactly the missing field names (those
required fields not bound in the record), and the check short-circuits:
the verdict is fully determined by the missing-field set, whatever the
bound values — no range, Sex, or boolean check influences it. -/
theorem missing_fields_short_circuit (record : Record)
    (h : missingFields record ≠ []) :
    validate_input_data (PyObj.dict record) =
      (false, "Missing required fields: " ++
        String.intercalate ", " (missingFields record)) ∧
    (∀ f, f ∈ missingFields record ↔
      f ∈ requiredFields ∧ record.lookup f = Option.none) ∧
    (∀ other : Record, missingFields other = missingFields record →
      validate_input_data (PyObj.dict other) =
        validate_input_data (PyObj.dict record)) := by
  refine ⟨validate_of_missing record h, ?_, ?_⟩
  · intro f
    rw [missingFields, List.mem_filter]
    constructor
    · rintro ⟨hreq, hc⟩
      refine ⟨hreq, ?_⟩
      rw [Bool.not_eq_true', contains_keys_iff_lookup] at hc
      simpa using hc
    · rintro ⟨hreq, hnone⟩
      refine ⟨hreq, ?_⟩
      rw [Bool.not_eq_true', contains_keys_iff_lookup, hnone]
      rfl
  · intro other hother
    rw [validate_of_missing record h, validate_of_missing other (by rw [hother]; exact h),
      hother]

/-- Witness for C3: the empty record misses all 15 fields and the
message lists all of them. -/
theorem missing_fields_short_circuit_witness :
    missingFields ([] : Record) ≠ [] ∧
    validate_input_data (PyObj.dict []) =
      (false, "Missing required fields: Age, Sex, Albumin, Bilirubin, " ++
        "ALT, AST, ALP, INR, Platelets, Sodium, Creatinine, Ascites, " ++
        "Hepatomegaly, Spiders, Edema") := by
  refine ⟨by decide, ?_⟩
  have h := (missing_fields_short_circuit ([] : Record) (by decide)).1
  rw [h]
  decide

/-- C2: For each of the 10 ranged numeric fields, a record otherwise
valid whose value for that field equals the configured minimum or
maximum passes validation, while the value one unit below the minimum
or one unit above the maximum is rejected with the message naming the
field and both bounds; in particular `Age = 17` is rejected with
"Age must be between 18 and 90". -/
theorem ranged_field_boundaries :
    (get_feature_ranges.all fun x =>
      (validate_input_data (PyObj.dict (setField validRecord x.fst x.snd.fst))
          == (true, "")) &&
      (validate_input_data (PyObj.dict (setField validRecord x.fst x.snd.snd))
          == (true, "")) &&
      (validate_input_data (PyObj.dict (setField validRecord x.fst (pySub1 x.snd.fst)))
          == (false, x.fst ++ " must be between " ++
                pyStr x.snd.fst ++ " and " ++ pyStr x.snd.snd)) &&
      (validate_input_data (PyObj.dict (setField validRecord x.fst (pyAdd1 x.snd.snd)))
          == (false, x.fst ++ " must be between " ++
                pyStr x.snd.fst ++ " and " ++ pyStr x.snd.snd))) = true ∧
    validate_input_data (PyObj.dict (setField validRecord "Age" (PyValue.int 17))) =
      (false, "Age must be between 18 and 90") := by
  constructor
  · decide
  · decide

/-- If every ranged field in the list is bound to an in-range number,
the range loop falls through without failing. -/
theorem rangeCheck_ok_of_valid (record : Record)
    (l : List (String × PyValue × PyValue))
    (h : ∀ x ∈ l, ((record.lookup x.fst).any
        fun v => isNumber v && !pyLt v x.snd.fst && !pyLt x.snd.snd v) = true) :
    rangeCheck record l = Except.ok Option.none := by
  induction l with
  | nil => rfl
  | cons x rest ih =>
      obtain ⟨field, mn, mx⟩ := x
      have hx := h _ (List.mem_cons_self _ _)
      match hv : record.lookup field with
      | Option.none =>
          rw [hv] at hx
          simp [Option.any] at hx
      | some v =>
          rw [hv] at hx
          simp only [Option.any, Bool.and_eq_true, Bool.not_eq_true'] at hx
          obtain ⟨⟨h1, h2⟩, h3⟩ := hx
          have hcont : (keys record).contains field = true := by
            rw [contains_keys_iff_lookup, hv]; rfl
          have hrest := ih (fun y hy => h y (List.mem_cons_of_mem _ hy))
          simp [rangeCheck, hcont, hv, h1, h2, h3, hrest]

/-- If every boolean field in the list is bound to a value equal (by
Python `==`) to 0 or 1, the boolean loop falls through. -/
theorem boolCheck_ok_of_valid (record : Record) (l : List String)
    (h : ∀ f ∈ l, ((record.lookup f).any
        fun v => pyIn v [PyValue.int 0, PyValue.int 1]) = true) :
    boolCheck record l = Except.ok Option.none := by
  induction l with
  | nil => rfl
  | cons f rest ih =>
      have hf := h _ (List.mem_cons_self _ _)
      match hv : record.lookup f with
      | Option.none =>
          rw [hv] at hf
          simp [Option.any] at hf
      | some v =>
          rw [hv] at hf
          simp only [Option.any] at hf
          have hrest := ih (fun y hy => h y (List.mem_cons_of_mem _ hy))
          simp [boolCheck, hv, hf, hrest]

/-- C10: A record binding all 15 required fields to valid values is
accepted with `(True, "")`, whatever additional keys it carries: the
missing-field check only subtracts from the required set, the range
loop iterates only the 10 catalog fields, and the Sex and boolean
checks look up their own fields, so extra keys are never consulted. -/
theorem valid_record_accepted (record : Record)
    (hmiss : missingFields record = [])
    (hrange : ∀ x ∈ get_feature_ranges, ((record.lookup x.fst).any
        fun v => isNumber v && !pyLt v x.snd.fst && !pyLt x.snd.snd v) = true)
    (hsex : ((record.lookup "Sex").any
        fun v => pyIn v [PyValue.str "M", PyValue.str "F"]) = true)
    (hbool : ∀ f ∈ booleanFields, ((record.lookup f).any
        fun v => pyIn v [PyValue.int 0, PyValue.int 1]) = true) :
    validate_input_data (PyObj.dict record) = (true, "") := by
  have hra := rangeCheck_ok_of_valid record get_feature_ranges hrange
  have hsx : sexCheck record = Except.ok Option.none := by
    match hv : record.lookup "Sex" with
    | Option.none =>
        rw [hv] at hsex
        simp [Option.any] at hsex
    | some v =>
        rw [hv] at hsex
        simp only [Option.any] at hsex
        simp [sexCheck, hv, hsex]
  have hbl := boolCheck_ok_of_valid record booleanFields hbool
  simp [validate_input_data, validateBodyAny, validateBody, hmiss, hra, hsx, hbl]

/-- Witness for C10: the valid record extended with two keys unknown to
the catalog is still accepted. -/
theorem valid_record_accepted_witness :
    validate_input_data (PyObj.dict
      (validRecord ++ [("Extra", PyValue.str "x"), ("Note", PyValue.int 7)])) =
      (true, "") :=
  valid_record_accepted _ (by decide) (by decide) (by decide) (by decide)

/-- C8: For a record that passes the missing-field and range checks and
whose Sex value is not `"M"` or `"F"` (by Python `==`, so lowercase
`"m"` included), validation fails with the fixed Sex message; when Sex
is `"M"` or `"F"`, the Sex check passes (falls through). -/
theorem sex_check_behavior (record : Record) (v : PyValue)
    (hmiss : missingFields record = [])
    (hrange : rangeCheck record get_feature_ranges = Except.ok Option.none)
    (hsex : record.lookup "Sex" = some v) :
    (pyIn v [PyValue.str "M", PyValue.str "F"] = false →
      validate_input_data (PyObj.dict record) =
        (false, "Sex must be either \x27M\x27 or \x27F\x27")) ∧
    (pyIn v [PyValue.str "M", PyValue.str "F"] = true →
      sexCheck record = Except.ok Option.none) := by
  constructor
  · intro hbad
    simp [validate_input_data, validateBodyAny, validateBody, hmiss, hrange,
      sexCheck, hsex, hbad]
  · intro hok
    simp [sexCheck, hsex, hok]

/-- Witness for C8: lowercase `"m"` is rejected with the fixed message. -/
theorem sex_check_behavior_witness :
    missingFields (setField validRecord "Sex" (PyValue.str "m")) = [] ∧
    rangeCheck (setField validRecord "Sex" (PyValue.str "m")) get_feature_ranges =
      Except.ok Option.none ∧
    (setField validRecord "Sex" (PyValue.str "m")).lookup "Sex" =
      some (PyValue.str "m") ∧
    validate_input_data (PyObj.dict (setField validRecord "Sex" (PyValue.str "m"))) =
      (false, "Sex must be either \x27M\x27 or \x27F\x27") :=
  ⟨by decide, rfl, by decide,
    (sex_check_behavior (setField validRecord "Sex" (PyValue.str "m"))
      (PyValue.str "m") (by decide) rfl (by decide)).1 (by decide)⟩

/-- If every boolean field in the list is bound and some field in the
list holds a value not equal (by Python `==`) to 0 or 1, the boolean
loop stops at the first such field with the message naming it. -/
theorem boolCheck_fails_of_bad (record : Record) (l : List String)
    (hbound : ∀ f ∈ l, (record.lookup f).isSome)
    (f : String) (v : PyValue) (hf : f ∈ l)
    (hv : record.lookup f = some v)
    (hbad : pyIn v [PyValue.int 0, PyValue.int 1] = false) :
    ∃ g w, g ∈ l ∧ record.lookup g = some w ∧
      pyIn w [PyValue.int 0, PyValue.int 1] = false ∧
      boolCheck record l = Except.ok (some (false, g ++ " must be 0 or 1")) := by
  induction l with
  | nil => cases hf
  | cons f0 rest ih =>
      have hb0 := hbound _ (List.mem_cons_self _ _)
      match hv0 : record.lookup f0 with
      | Option.none => rw [hv0] at hb0; cases hb0
      | some w0 =>
          cases hw0 : pyIn w0 [PyValue.int 0, PyValue.int 1] with
          | false =>
              refine ⟨f0, w0, List.mem_cons_self _ _, hv0, hw0, ?_⟩
              simp [boolCheck, hv0, hw0]
          | true =>
              have hfrest : f ∈ rest := by
                rcases List.mem_cons.mp hf with heq | hmem
                · subst heq
                  rw [hv0] at hv
                  cases hv
                  rw [hw0] at hbad
                  cases hbad
                · exact hmem
              obtain ⟨g, w, hg, hgw, hgbad, hres⟩ :=
                ih (fun y hy => hbound y (List.mem_cons_of_mem _ hy)) hfrest
              refine ⟨g, w, List.mem_cons_of_mem _ hg, hgw, hgbad, ?_⟩
              simp [boolCheck, hv0, hw0, hres]

/-- C1 counterexample: the record valid everywhere whose Edema value is
the float `1.0` is accepted with `(True, "")` — the claim demands its
rejection — because the boolean check tests membership in `[0, 1]` with
Python `==`, under which `1.0` equals `1`. -/
theorem boolean_float_one_accepted :
    validate_input_data
      (PyObj.dict (setField validRecord "Edema" (PyValue.float 1 1))) =
      (true, "") ∧
    pyEq (PyValue.float 1 1) (PyValue.int 1) = true := by
  constructor
  · decide
  · decide

/-- C1 amended: for a record that passes the missing-field, range and
Sex checks, the boolean check accepts when each of the four boolean
fields holds a value equal (by Python `==`) to 0 or 1 — so the exact
integers 0 and 1, but equally the floats 0.0 and 1.0 — and rejects with
a message naming an offending boolean field when some boolean field
holds a value equal to neither (such as 2, -1, or the string "1"). -/
theorem boolean_check_behavior (record : Record)
    (hmiss : missingFields record = [])
    (hrange : rangeCheck record get_feature_ranges = Except.ok Option.none)
    (hsex : sexCheck record = Except.ok Option.none) :
    ((∀ f ∈ booleanFields, ((record.lookup f).any
        fun v => pyIn v [PyValue.int 0, PyValue.int 1]) = true) →
      validate_input_data (PyObj.dict record) = (true, "")) ∧
    (∀ f v, f ∈ booleanFields → record.lookup f = some v →
      pyIn v [PyValue.int 0, PyValue.int 1] = false →
      ∃ g w, g ∈ booleanFields ∧ record.lookup g = some w ∧
        pyIn w [PyValue.int 0, PyValue.int 1] = false ∧
        validate_input_data (PyObj.dict record) =
          (false, g ++ " must be 0 or 1")) := by
  constructor
  · intro hok
    have hbl := boolCheck_ok_of_valid record booleanFields hok
    simp [validate_input_data, validateBodyAny, validateBody, hmiss, hrange,
      hsex, hbl]
  · intro f v hf hv hbad
    have hbound : ∀ g ∈ booleanFields, (record.lookup g).isSome := by
      intro g hg
      refine lookup_isSome_of_required record hmiss g ?_
      fin_cases hg <;> decide
    obtain ⟨g, w, hg, hgw, hgbad, hres⟩ :=
      boolCheck_fails_of_bad record booleanFields hbound f v hf hv hbad
    refine ⟨g, w, hg, hgw, hgbad, ?_⟩
    simp [validate_input_data, validateBodyAny, validateBody, hmiss, hrange,
      hsex, hres]

/-- Witness for C1: Spiders = 2 is rejected, and the all-integer 0/1
record is accepted. -/
theorem boolean_check_behavior_witness :
    (validate_input_data
      (PyObj.dict (setField validRecord "Spiders" (PyValue.int 2)))).fst = false ∧
    validate_input_data (PyObj.dict validRecord) = (true, "") := by
  constructor
  · obtain ⟨g, w, hg, hgw, hgbad, hres⟩ :=
      (boolean_check_behavior (setField validRecord "Spiders" (PyValue.int 2))
        (by decide) rfl rfl).2 "Spiders" (PyValue.int 2) (by decide) (by decide)
        (by decide)
    rw [hres]
  · exact (boolean_check_behavior validRecord (by decide) rfl rfl).1 (by decide)

/-- C4: When validation fails, `predict_liver_disease` raises
`ValueError` carrying exactly the validator message and returns the
cache state untouched: the model loader is never invoked (no
deserialization, no cache population) and no inference is attempted. -/
theorem invalid_input_no_model_load (fs : FileState) (s : CacheState)
    (record : Record)
    (h : (validate_input_data (PyObj.dict record)).fst = false) :
    predict_liver_disease fs s record =
      (PredictResult.valueError (validate_input_data (PyObj.dict record)).snd,
       s) := by
  simp [predict_liver_disease, h]

/-- Witness for C4: the empty record is invalid, so prediction raises
the validator message and the fresh cache stays fresh. -/
theorem invalid_input_no_model_load_witness :
    (validate_input_data (PyObj.dict ([] : Record))).fst = false ∧
    predict_liver_disease FileState.absent freshCache [] =
      (PredictResult.valueError
        (validate_input_data (PyObj.dict ([] : Record))).snd, freshCache) :=
  ⟨by decide, invalid_input_no_model_load FileState.absent freshCache [] (by decide)⟩

/-- C5: When the model file is absent or fails to deserialize,
`load_model` displays an error (the reported-message list is non-empty)
and returns no usable handle (`None`), and the prediction pipeline does
not fail opaquely on that `None`: on an otherwise valid record it
raises the explicit "Failed to load model" error instead of attempting
inference. -/
theorem load_failure_surfaced (fs : FileState) (s : CacheState)
    (record : Record)
    (hload : (load_model fs).fst = Option.none)
    (hcache : s.cached = Option.none)
    (hvalid : (validate_input_data (PyObj.dict record)).fst = true) :
    (load_model fs).snd ≠ [] ∧
    (predict_liver_disease fs s record).fst =
      PredictResult.runtimeError "Failed to load model" := by
  constructor
  · cases fs with
    | good m => simp [load_model] at hload
    | absent => simp [load_model]
    | corrupt e => simp [load_model]
  · rcases hlm : load_model fs with ⟨m, errs⟩
    rw [hlm] at hload
    simp only at hload
    subst hload
    simp [predict_liver_disease, hvalid, load_model_cached, hcache, hlm]

/-- Witness for C5: a corrupt model file is reported and surfaces as
the explicit runtime failure on a valid record. -/
theorem load_failure_surfaced_witness :
    (load_model (FileState.corrupt "invalid pickle")).fst = Option.none ∧
    freshCache.cached = Option.none ∧
    (validate_input_data (PyObj.dict validRecord)).fst = true ∧
    (load_model (FileState.corrupt "invalid pickle")).snd ≠ [] ∧
    (predict_liver_disease (FileState.corrupt "invalid pickle") freshCache
      validRecord).fst = PredictResult.runtimeError "Failed to load model" := by
  refine ⟨rfl, rfl, by decide, ?_⟩
  exact load_failure_surfaced (FileState.corrupt "invalid pickle") freshCache
    validRecord rfl rfl (by decide)

/-- C6: On a valid record with a loaded classifier, prediction returns
the classifier verdict as the stage label and the probability mapping
obtained by positionally zipping the classifier class-label list with
its probability vector, with no re-sorting or re-indexing. -/
theorem prediction_pairs_positionally (fs : FileState) (s : CacheState)
    (record : Record) (model : Classifier)
    (hvalid : (validate_input_data (PyObj.dict record)).fst = true)
    (hmodel : (load_model_cached fs s).fst = some model) :
    (predict_liver_disease fs s record).fst =
      PredictResult.ok (model.predictFn record)
        (model.classes.zip (model.predictProbaFn record)) := by
  rcases hlc : load_model_cached fs s with ⟨m, s1⟩
  rw [hlc] at hmodel
  simp only at hmodel
  subst hmodel
  simp [predict_liver_disease, hvalid, hlc]

/-- The stub classifier of the spec scenario: three stages with the
probability vector `[0.2, 0.3, 0.5]`. -/
def stubClassifier : Classifier :=
  { predictFn := fun _ => "Stage1",
    predictProbaFn := fun _ =>
      [PyValue.float 2 10, PyValue.float 3 10, PyValue.float 5 10],
    classes := ["Stage1", "Stage2", "Stage3"] }

/-- Witness for C6: the stub classifier yields exactly the mapping
Stage1 to 0.2, Stage2 to 0.3, Stage3 to 0.5, and the probabilities sum
exactly to 1. -/
theorem prediction_pairs_positionally_witness :
    (validate_input_data (PyObj.dict validRecord)).fst = true ∧
    (load_model_cached (FileState.good stubClassifier) freshCache).fst =
      some stubClassifier ∧
    (predict_liver_disease (FileState.good stubClassifier) freshCache
        validRecord).fst =
      PredictResult.ok "Stage1"
        [("Stage1", PyValue.float 2 10), ("Stage2", PyValue.float 3 10),
         ("Stage3", PyValue.float 5 10)] ∧
    (pySum [PyValue.float 2 10, PyValue.float 3 10, PyValue.float 5 10]).fst =
      ((pySum [PyValue.float 2 10, PyValue.float 3 10,
        PyValue.float 5 10]).snd : Int) := by
  refine ⟨by decide, rfl, ?_, by decide⟩
  rw [prediction_pairs_positionally (FileState.good stubClassifier) freshCache
    validRecord stubClassifier (by decide) rfl]
  decide

/-- Once the cache holds a result, every further call returns it and
leaves the state untouched. -/
theorem callLoadN_cached (fs : FileState) (s : CacheState)
    (r : Option Classifier) (h : s.cached = some r) :
    ∀ n, callLoadN fs s n = (List.replicate n r, s) := by
  intro n
  induction n with
  | zero => rfl
  | succ m ih =>
      simp [callLoadN, load_model_cached, h, ih, List.replicate]

/-- C9: However many times the cached loader is called within one
process, the underlying deserialization runs at most once, and every
call returns the same instance — the result of the single underlying
load. -/
theorem loader_deserializes_at_most_once (fs : FileState) (n : Nat) :
    (callLoadN fs freshCache n).snd.deserializeCount ≤ 1 ∧
    ∀ r ∈ (callLoadN fs freshCache n).fst, r = (load_model fs).fst := by
  cases n with
  | zero => simp [callLoadN, freshCache]
  | succ m =>
      rcases hlm : load_model fs with ⟨r0, errs⟩
      have hstep : load_model_cached fs freshCache =
          (r0, { cached := some r0, deserializeCount := 1, errors := errs }) := by
        simp [load_model_cached, freshCache, hlm]
      have hrest := callLoadN_cached fs
        { cached := some r0, deserializeCount := 1, errors := errs } r0 rfl m
      constructor
      · simp [callLoadN, hstep, hrest]
      · intro r hr
        simp only [callLoadN, hstep, hrest] at hr
        simp only [List.mem_cons] at hr
        rcases hr with h | h
        · exact h
        · exact List.eq_of_mem_replicate h

/-- Witness for C9: three calls against an absent file deserialize once
and all yield the `None` handle. -/
theorem loader_deserializes_at_most_once_witness :
    (callLoadN FileState.absent freshCache 3).snd.deserializeCount ≤ 1 ∧
    (callLoadN FileState.absent freshCache 3).fst =
      [Option.none, Option.none, Option.none] :=
  ⟨(loader_deserializes_at_most_once FileState.absent 3).1, rfl⟩
